import Mathlib

/-!
# Verification of the yaml_serde serialization framework

Shallow embedding of `src/yaml_serde/__init__.py` (mentalsmash/yaml-serde).

Conventions of the embedding:
* Text is modelled as `List Char`.
* Python values in the scope of the claims are modelled by `PyVal`:
  scalars (int, str, bool, None), lists, tuples and mappings with scalar
  keys (the wire-representable mappings; sufficient for the flat-mapping
  and round-trip claims).
* Python exceptions are modelled by `PyExc`; fallible code returns
  `Except PyExc _`.
* The external codecs (`yaml.safe_dump` of PyYAML and `json.dumps` of the
  standard library) are not part of this repository; they are modelled
  from their documented and well-known behaviour: PyYAML's `safe_dump`
  sorts mapping keys by default (`sort_keys=True`, falling back to
  insertion order when Python's `sorted` raises `TypeError` on
  incomparable keys), emits block style, and terminates a top-level plain
  scalar document with the `...` end marker; `json.dumps` emits a single
  line with `", "` and `": "` separators and escapes control characters.
-/

/-! ## Scalars and Python values -/

/-- A YAML/JSON-representable scalar: Python `int`, `str`, `bool` or `None`. -/
inductive Scalar : Type where
  | int (n : Int)
  | str (s : List Char)
  | bool (b : Bool)
  | none
deriving DecidableEq

/-- A Python value in the scope of the claims: scalars, lists, tuples, and
mappings whose keys are scalars. -/
inductive PyVal : Type where
  | scalar (a : Scalar)
  | list (els : List PyVal)
  | tuple (els : List PyVal)
  | dict (es : List (Scalar × PyVal))

/-! ## Capability flags and built-in serializer dispatch

`BuiltinYamlSerializerClass` (src/yaml_serde/__init__.py:514-530) probes the
target class with `issubclass` against the `collections.abc` hierarchy, in
this order: `Mapping`, `Set`, `Collection`, `Iterable`, otherwise the
wrapper (identity) serializer. A class is modelled by its capability flags. -/

/-- Capability flags of a Python class, as probed by `issubclass` in
`BuiltinYamlSerializerClass`: membership in `collections.abc.Mapping`,
`Set`, `Collection`, `Iterable`, and being a subclass of `str`. -/
structure PyCls : Type where
  isMapping : Bool
  isSet : Bool
  isCollection : Bool
  isIterable : Bool
  isStr : Bool
deriving DecidableEq

/-- The family of built-in serializer classes returned by
`BuiltinYamlSerializerClass`. -/
inductive SerializerKind : Type where
  | mapping
  | set
  | collection
  | iterable
  | wrapper
deriving DecidableEq

/-- `BuiltinYamlSerializerClass(cls, ...)` (src/yaml_serde/__init__.py:514):
`if issubclass(cls, Mapping): ... elif issubclass(cls, Set): ...
elif issubclass(cls, Collection): ... elif issubclass(cls, Iterable): ...
else: wrapper`. -/
def BuiltinYamlSerializerClass (c : PyCls) : SerializerKind :=
  if c.isMapping then .mapping
  else if c.isSet then .set
  else if c.isCollection then .collection
  else if c.isIterable then .iterable
  else .wrapper

/-- Modelled from the spec's words (for comparison with the code): the fixed
capability probing order `Mapping > Set > Collection > Iterable`, the first
satisfied capability winning, with identity/passthrough as the fallback. -/
def specProbeOrder : List ((PyCls → Bool) × SerializerKind) :=
  [(PyCls.isMapping, .mapping), (PyCls.isSet, .set),
   (PyCls.isCollection, .collection), (PyCls.isIterable, .iterable)]

/-- Modelled from the spec's words: resolve the strategy of a type with no
explicitly declared serializer by taking the first satisfied capability of
`specProbeOrder`, falling back to identity/passthrough. -/
def specCapabilityProbe (c : PyCls) : SerializerKind :=
  match specProbeOrder.find? (fun p => p.1 c) with
  | some p => p.2
  | Option.none => .wrapper

/-- C4: for every type with no explicitly declared serializer, the built-in
dispatch follows the fixed priority order Mapping > Set > Collection >
Iterable > identity/passthrough (the code's if/elif chain agrees with the
spec's priority-list resolution at every capability combination), and in
particular a type satisfying both the Mapping and Iterable capabilities is
always given the Mapping strategy. -/
theorem C4_builtin_dispatch_priority :
    (∀ c : PyCls, BuiltinYamlSerializerClass c = specCapabilityProbe c) ∧
    (∀ c : PyCls, c.isMapping = true → c.isIterable = true →
      BuiltinYamlSerializerClass c = SerializerKind.mapping) := by
  constructor
  · intro c
    obtain ⟨m, s, co, it, st⟩ := c
    revert m s co it st
    decide
  · intro c hm _
    obtain ⟨m, s, co, it, st⟩ := c
    simp only [PyCls.isMapping] at hm
    subst hm
    rfl

/-- Witness for C4 at a concrete type that is both Mapping-like and
Iterable (like Python's `dict`): it is dispatched to the Mapping strategy. -/
theorem C4_builtin_dispatch_priority_witness :
    BuiltinYamlSerializerClass ⟨true, false, true, true, false⟩ =
      SerializerKind.mapping :=
  C4_builtin_dispatch_priority.2 ⟨true, false, true, true, false⟩ rfl rfl

/-! ## Python exceptions -/

/-- The Python exceptions raised by the code under verification:
`TypeError`, `NameError`, `ValueError`, and the library's own typed
`YamlError` (src/yaml_serde/__init__.py:183-186). -/
inductive PyExc : Type where
  | typeError
  | nameError
  | valueError
  | yamlError
deriving DecidableEq

/-! ## Container serializer constructors (C7)

The `__init__` chain of the built-in container serializers
(src/yaml_serde/__init__.py:541-608). The factory always sets `_tgt_cls`,
so the constructors are modelled on the target class `t` directly, with
`elCls`/`keyCls` as optional declarations (`_ContainerYamlSerializer.__init__`
only normalizes a falsy `_el_cls` to `None`; it performs no check). -/

/-- `_MappingYamlSerializer.__init__` (src/yaml_serde/__init__.py:554-560):
after the container base init, `if not issubclass(self._tgt_cls, Mapping):
raise YamlError(...)`. -/
def mapping_serializer_init (t : PyCls) (_elCls _keyCls : Option Unit) :
    Except PyExc Unit :=
  if !t.isMapping then .error .yamlError else .ok ()

/-- `_SetYamlSerializer.__init__` (src/yaml_serde/__init__.py:579-583):
after the container base init, `if not issubclass(self._tgt_cls, Set):
raise YamlError(...)`. -/
def set_serializer_init (t : PyCls) (_elCls : Option Unit) :
    Except PyExc Unit :=
  if !t.isSet then .error .yamlError else .ok ()

/-- `_IterableYamlSerializer.__init__` (src/yaml_serde/__init__.py:589-595):
`if not issubclass(self._tgt_cls, Iterable): raise YamlError(...)`, then
`if issubclass(self._tgt_cls, str) and self._el_cls is not None:
raise YamlError("container element specified for a string class")`. -/
def iterable_serializer_init (t : PyCls) (elCls : Option Unit) :
    Except PyExc Unit :=
  if !t.isIterable then .error .yamlError
  else if t.isStr && elCls.isSome then .error .yamlError
  else .ok ()

/-- `_CollectionYamlSerializer.__init__` (src/yaml_serde/__init__.py:604-608):
runs `_IterableYamlSerializer.__init__` via `super()`, then
`if not issubclass(self._tgt_cls, Collection): raise YamlError(...)`. -/
def collection_serializer_init (t : PyCls) (elCls : Option Unit) :
    Except PyExc Unit :=
  match iterable_serializer_init t elCls with
  | .error e => .error e
  | .ok _ => if !t.isCollection then .error .yamlError else .ok ()

/-- C7: constructing a container strategy whose target type does not satisfy
the claimed capability fails at construction with the typed `YamlError`
(shown for the Mapping, Set and Collection serializers; e.g. the Set
strategy bound to a non-set type), and constructing an Iterable strategy
with a declared element type for a string-like target type also fails with
`YamlError`. -/
theorem C7_container_init_capability_errors :
    ∀ (t : PyCls) (el key : Option Unit),
      (t.isSet = false → set_serializer_init t el = .error .yamlError) ∧
      (t.isMapping = false →
        mapping_serializer_init t el key = .error .yamlError) ∧
      (t.isCollection = false →
        collection_serializer_init t el = .error .yamlError) ∧
      (t.isStr = true →
        iterable_serializer_init t (some ()) = .error .yamlError) := by
  intro t el key
  refine ⟨fun h => ?_, fun h => ?_, fun h => ?_, fun h => ?_⟩
  · simp [set_serializer_init, h]
  · simp [mapping_serializer_init, h]
  · by_cases hIt : t.isIterable
    · by_cases hStr : t.isStr && el.isSome <;>
        simp [collection_serializer_init, iterable_serializer_init, hIt,
          hStr, h]
    · simp [collection_serializer_init, iterable_serializer_init, hIt]
  · by_cases hIt : t.isIterable <;>
      simp [iterable_serializer_init, hIt, h]

/-- Witness for C7 at concrete inputs: a string-like iterable type (like
`str`: iterable, collection, not a set, not a mapping) makes the Set and
Mapping constructors fail, and declaring an element type on it makes the
Iterable constructor fail; a capability-free type makes the Collection
constructor fail. -/
theorem C7_container_init_capability_errors_witness :
    set_serializer_init ⟨false, false, true, true, true⟩ none
        = .error .yamlError ∧
    mapping_serializer_init ⟨false, false, true, true, true⟩ none none
        = .error .yamlError ∧
    collection_serializer_init ⟨false, false, false, false, false⟩ none
        = .error .yamlError ∧
    iterable_serializer_init ⟨false, false, true, true, true⟩ (some ())
        = .error .yamlError :=
  ⟨(C7_container_init_capability_errors ⟨false, false, true, true, true⟩
      none none).1 rfl,
   (C7_container_init_capability_errors ⟨false, false, true, true, true⟩
      none none).2.1 rfl,
   (C7_container_init_capability_errors ⟨false, false, false, false, false⟩
      none none).2.2.1 rfl,
   (C7_container_init_capability_errors ⟨false, false, true, true, true⟩
      none none).2.2.2 rfl⟩

/-! ## Strategy resolution caching (C8)

`YamlSerializer.assert_yaml_serializer` (src/yaml_serde/__init__.py:397-429)
looks up the `_yaml_serializer` attribute; if absent it instantiates a new
serializer and then tries `setattr(obj, "_yaml_serializer", serializer)`,
silently ignoring failure (which happens for built-in types, whose class
objects are read-only). The state of a class is its cached-attribute slot
plus whether `setattr` on it succeeds; serializer instances are numbered by
a construction counter so that instance identity is observable. -/

/-- The caching state of a class: the `_yaml_serializer` attribute (if
attached) and whether `setattr` on the class object succeeds (`False` for
read-only built-in types such as `dict` or `int`). -/
structure ClsCacheState : Type where
  yamlSerializerAttr : Option Nat
  settable : Bool
deriving DecidableEq

/-- `YamlSerializer.assert_yaml_serializer` on a class object
(src/yaml_serde/__init__.py:397-429): return the cached `_yaml_serializer`
if present; otherwise instantiate a fresh serializer (numbered `nextId`)
and best-effort attach it (`try: setattr ... except: pass`). Returns the
serializer id, the updated class state, and the updated counter. -/
def assert_yaml_serializer (st : ClsCacheState) (nextId : Nat) :
    Nat × ClsCacheState × Nat :=
  match st.yamlSerializerAttr with
  | some s => (s, st, nextId)
  | Option.none =>
    (nextId,
     if st.settable then { st with yamlSerializerAttr := some nextId } else st,
     nextId + 1)

/-- Counterexample to C8 as stated: for a type whose class object rejects
attribute attachment (a built-in type; `settable = false`), resolving a
strategy twice constructs two distinct instances — the second resolution
does not return the first instance, so two different strategy instances for
the same type are observable. -/
theorem C8_resolution_counterexample :
    (assert_yaml_serializer
        ((assert_yaml_serializer ⟨none, false⟩ 0).2.1)
        ((assert_yaml_serializer ⟨none, false⟩ 0).2.2)).1 ≠
      (assert_yaml_serializer ⟨none, false⟩ 0).1 := by
  decide

/-- C8 (amended): for every type whose class object accepts attribute
attachment, resolving a strategy twice returns the identical cached
instance the second time rather than constructing a new one; for read-only
built-in types the attachment is silently skipped and each resolution
constructs a fresh instance. -/
theorem C8_resolution_idempotent_when_settable :
    ∀ (st : ClsCacheState) (n : Nat), st.settable = true →
      (assert_yaml_serializer
          ((assert_yaml_serializer st n).2.1)
          ((assert_yaml_serializer st n).2.2)).1 =
        (assert_yaml_serializer st n).1 := by
  intro st n h
  match hattr : st.yamlSerializerAttr with
  | some s => simp [assert_yaml_serializer, hattr]
  | Option.none => simp [assert_yaml_serializer, hattr, h]

/-- Witness for C8 (amended) at a concrete settable class with an empty
cache slot. -/
theorem C8_resolution_idempotent_when_settable_witness :
    (assert_yaml_serializer
        ((assert_yaml_serializer ⟨none, true⟩ 0).2.1)
        ((assert_yaml_serializer ⟨none, true⟩ 0).2.2)).1 =
      (assert_yaml_serializer ⟨none, true⟩ 0).1 :=
  C8_resolution_idempotent_when_settable ⟨none, true⟩ 0 rfl

/-! ## Serialization format registry (C3)

`_UserSerializationFormats` (src/yaml_serde/__init__.py:259-271) and
`_SerializationFormats` (src/yaml_serde/__init__.py:273-307). The user
container keeps registered formats as attributes on itself
(`setattr(self, fmt.id, fmt)`), here modelled as an association list.

The method bodies contain unconditional errors, embedded faithfully:
* `_UserSerializationFormats.lookup` evaluates
  `next(filter(self, lambda f: fmt.id == id), None)` — the arguments of
  `filter` are swapped, so `next` iterates over the lambda, a non-iterable,
  and raises `TypeError` before the lambda body (with its own undefined
  name `fmt`) is ever evaluated.
* `_UserSerializationFormats.add` and `.remove` first evaluate the
  undefined name `getatrr` (a typo for `getattr`), raising `NameError`.
* The already-registered branch of `_SerializationFormats.register`
  formats the f-string `f"format already registered: {f}"`, whose
  undefined name `f` raises `NameError` before the `YamlError` is built. -/

/-- A `SerializationFormat` instance: its string id and the identity of the
class that constructed it (`__eq__`/`__hash__` are by id,
src/yaml_serde/__init__.py:211-223). -/
structure Format : Type where
  id : List Char
  clsId : Nat
deriving DecidableEq

/-- A `SerializationFormat` subclass handed to `register`: its identity and
whether `issubclass(fmt_cls, SerializationFormat)` holds. -/
structure FormatCls : Type where
  clsId : Nat
  isSerializationFormatSubclass : Bool
deriving DecidableEq

/-- The `_UserSerializationFormats` container: the formats attached to it
as attributes (`setattr(self, fmt.id, fmt)`), keyed by format id. -/
structure UserFormats : Type where
  attrs : List (List Char × Format)
deriving DecidableEq

/-- `getattr(self.user, id, None)` on the user-format container. -/
def UserFormats.getattr (u : UserFormats) (id : List Char) : Option Format :=
  (u.attrs.find? (fun kv => kv.1 = id)).map (·.2)

/-- `_UserSerializationFormats.lookup` (src/yaml_serde/__init__.py:260-261):
`next(filter(self, lambda f: fmt.id == id), None)` — `filter`'s iterable
argument is the lambda, which is not iterable, so `next` raises
`TypeError` unconditionally. -/
def UserFormats.lookup (_ : UserFormats) (_ : List Char) :
    Except PyExc (Option Format) :=
  .error .typeError

/-- `_UserSerializationFormats.add` (src/yaml_serde/__init__.py:263-266):
the guard `if getatrr(self, fmt.id, None) is None:` evaluates the undefined
name `getatrr`, raising `NameError` unconditionally. -/
def UserFormats.add (_ : UserFormats) (_ : Format) :
    Except PyExc UserFormats :=
  .error .nameError

/-- `_UserSerializationFormats.remove` (src/yaml_serde/__init__.py:268-271):
the guard `if getatrr(self, fmt.id, None) is not None:` evaluates the
undefined name `getatrr`, raising `NameError` unconditionally. -/
def UserFormats.remove (_ : UserFormats) (_ : Format) :
    Except PyExc UserFormats :=
  .error .nameError

/-- The process-wide `_SerializationFormats` registry
(src/yaml_serde/__init__.py:273-307): the two built-in formats plus the
user-format container. -/
structure SerializationFormats : Type where
  yaml : Format
  json : Format
  user : UserFormats
deriving DecidableEq

/-- The initial `formats` registry (src/yaml_serde/__init__.py:313):
`_SerializationFormats()` with no user formats. The built-in instances are
given distinct class identities. -/
def formatsInit : SerializationFormats :=
  { yaml := { id := "yaml".data, clsId := 0 },
    json := { id := "json".data, clsId := 1 },
    user := { attrs := [] } }

/-- `_SerializationFormats.register` (src/yaml_serde/__init__.py:282-292):
check `issubclass(fmt_cls, SerializationFormat)`; if a format with this id
is already attached to the user container and its class differs, the
error-message f-string references the undefined name `f` (`NameError`);
otherwise instantiate `fmt_cls(id)` and call `self.user.add(fmt)`, which
raises `NameError` from the `getatrr` typo. -/
def SerializationFormats.register (fs : SerializationFormats)
    (id : List Char) (fmtCls : FormatCls) :
    Except PyExc (Format × SerializationFormats) :=
  if !fmtCls.isSerializationFormatSubclass then .error .yamlError
  else
    match fs.user.getattr id with
    | some fmt =>
      if fmt.clsId ≠ fmtCls.clsId then .error .nameError
      else .ok (fmt, fs)
    | Option.none =>
      let fmt : Format := { id := id, clsId := fmtCls.clsId }
      match fs.user.add fmt with
      | .error e => .error e
      | .ok u => .ok (fmt, { fs with user := u })

/-- `_SerializationFormats.unregister` (src/yaml_serde/__init__.py:294-299):
if no format with this id is attached to the user container, raise
`YamlError("format not registered: ...")`; otherwise call
`self.user.remove(fmt)` (which raises `NameError`). -/
def SerializationFormats.unregister (fs : SerializationFormats)
    (id : List Char) : Except PyExc (Format × SerializationFormats) :=
  match fs.user.getattr id with
  | Option.none => .error .yamlError
  | some fmt =>
    match fs.user.remove fmt with
    | .error e => .error e
    | .ok u => .ok (fmt, { fs with user := u })

/-- `_SerializationFormats.lookup` (src/yaml_serde/__init__.py:301-307):
the built-in ids return the built-in instances; any other id is delegated
to `self.user.lookup(id)`. -/
def SerializationFormats.lookup (fs : SerializationFormats)
    (id : List Char) : Except PyExc (Option Format) :=
  if id = "yaml".data then .ok (some fs.yaml)
  else if id = "json".data then .ok (some fs.json)
  else fs.user.lookup id

/-- C3, evaluated at the failing input: on the pristine registry,
registering a proper `SerializationFormat` subclass under the fresh id
`"xml"` does not succeed — it raises `NameError` (the `getatrr` typo in
`_UserSerializationFormats.add`); looking up that id raises `TypeError`
(the swapped `filter` arguments in `_UserSerializationFormats.lookup`)
instead of returning a registered instance. Only the last part of the
claim holds: unregistering a never-registered id fails with the typed
`YamlError`. -/
theorem C3_registry_register_raises :
    formatsInit.register "xml".data ⟨7, true⟩ = .error .nameError ∧
    formatsInit.lookup "xml".data = .error .typeError ∧
    formatsInit.unregister "xml".data = .error .yamlError := by
  refine ⟨rfl, ?_, rfl⟩
  show (if _ then _ else _) = _
  norm_num [SerializationFormats.lookup, UserFormats.lookup]

/-! ## Decimal digits (shared by the str/yaml/json renderings) -/

/-- The decimal digit character of `d % 10`-style values. -/
def digitChar (d : Nat) : Char :=
  if d = 1 then '1' else if d = 2 then '2' else if d = 3 then '3'
  else if d = 4 then '4' else if d = 5 then '5' else if d = 6 then '6'
  else if d = 7 then '7' else if d = 8 then '8' else if d = 9 then '9'
  else '0'

theorem digitChar_ne_newline (d : Nat) : digitChar d ≠ '\n' := by
  unfold digitChar
  repeat' split
  all_goals decide

/-- Decimal digits of a natural number, accumulator style. The first
argument is fuel (structural recursion, so that renderings reduce inside
the kernel); `fuel ≥ n` always suffices since the value shrinks by a
factor of ten per step. -/
def natToCharsAux : Nat → Nat → List Char → List Char
  | 0, _, acc => acc
  | fuel + 1, n, acc =>
    if n = 0 then acc
    else natToCharsAux fuel (n / 10) (digitChar (n % 10) :: acc)

/-- Decimal rendering of a natural number. -/
def natToChars (n : Nat) : List Char :=
  if n = 0 then ['0'] else natToCharsAux (n + 1) n []

/-- Decimal rendering of a Python `int`. -/
def intToChars (n : Int) : List Char :=
  if n < 0 then '-' :: natToChars n.natAbs else natToChars n.natAbs

theorem natToCharsAux_ne_newline (fuel n : Nat) (acc : List Char)
    (hacc : ∀ c ∈ acc, c ≠ '\n') :
    ∀ c ∈ natToCharsAux fuel n acc, c ≠ '\n' := by
  induction fuel generalizing n acc with
  | zero => exact hacc
  | succ fuel ih =>
    unfold natToCharsAux
    split
    · exact hacc
    · refine ih _ _ ?_
      intro c hc
      rcases List.mem_cons.mp hc with h | h
      · exact h ▸ digitChar_ne_newline _
      · exact hacc c h

theorem natToChars_ne_newline (n : Nat) : ∀ c ∈ natToChars n, c ≠ '\n' := by
  unfold natToChars
  split
  · intro c hc
    simp only [List.mem_singleton] at hc
    exact hc ▸ (by decide)
  · exact natToCharsAux_ne_newline (n + 1) n [] (by intro c hc; cases hc)

theorem intToChars_ne_newline (n : Int) : ∀ c ∈ intToChars n, c ≠ '\n' := by
  unfold intToChars
  split
  · intro c hc
    rcases List.mem_cons.mp hc with h | h
    · exact h ▸ (by decide)
    · exact natToChars_ne_newline _ c h
  · exact natToChars_ne_newline _

/-! ## The object-to-wire conversion `repr_yml` (C9)

Dispatch per value type (src/yaml_serde/__init__.py:136-162, 467-468,
562-565, 597-602):
* `int`, `bool`, `NoneType` have no container capability, get the wrapper
  serializer, whose `repr_yml` is the inherited identity
  (src/yaml_serde/__init__.py:467-468);
* `str`, `list`, `tuple` are `Collection`s: `_CollectionYamlSerializer`
  inherits `_IterableYamlSerializer.repr_yml`
  (src/yaml_serde/__init__.py:597-602), which passes a `str` through
  unchanged and converts any other iterable to
  `tuple(repr_yml(el) for el in py_repr)`;
* `dict` is a `Mapping`: `_MappingYamlSerializer.repr_yml`
  (src/yaml_serde/__init__.py:562-565) converts to
  `{repr_yml(k): repr_yml(v) for k, v in py_repr.items()}` (keys in this
  model are scalars, on which `repr_yml` is the identity). -/

mutual

/-- The module-level `repr_yml(py_repr)` restricted to built-in values:
resolve the built-in serializer of the value's type and apply its
`repr_yml` (see the section comment for the per-type dispatch). -/
def repr_yml : PyVal → PyVal
  | .scalar a => .scalar a
  | .list els => .tuple (repr_yml_list els)
  | .tuple els => .tuple (repr_yml_list els)
  | .dict es => .dict (repr_yml_entries es)

/-- Elementwise `repr_yml` of the generator
`tuple(repr_yml(el) for el in py_repr)`. -/
def repr_yml_list : List PyVal → List PyVal
  | [] => []
  | v :: r => repr_yml v :: repr_yml_list r

/-- Entrywise `repr_yml` of the dict comprehension
`{repr_yml(k): repr_yml(v) for k, v in py_repr.items()}` (scalar keys are
fixed by `repr_yml`). -/
def repr_yml_entries : List (Scalar × PyVal) → List (Scalar × PyVal)
  | [] => []
  | (k, v) :: r => (k, repr_yml v) :: repr_yml_entries r

end

theorem repr_yml_list_eq_map (l : List PyVal) :
    repr_yml_list l = l.map repr_yml := by
  induction l with
  | nil => rfl
  | cons v r ih => simp [repr_yml_list, ih]

/-- Python iteration `iter(v)` over the modelled values: a `str` yields its
characters (as one-character strings), a `list`/`tuple` its elements, a
`dict` its keys; other scalars are not iterable. -/
def pyIter : PyVal → Option (List PyVal)
  | .scalar (.str s) => some (s.map (fun c => .scalar (.str [c])))
  | .list els => some els
  | .tuple els => some els
  | .dict es => some (es.map (fun kv => .scalar kv.1))
  | _ => Option.none

/-- Whether a value is a Python `str` (`isinstance(py_repr, str)`). -/
def isStrVal : PyVal → Bool
  | .scalar (.str _) => true
  | _ => false

/-- `_IterableYamlSerializer.repr_yml` (src/yaml_serde/__init__.py:597-602):
`if isinstance(py_repr, str): yml_repr = py_repr else:
yml_repr = tuple(repr_yml(el) for el in py_repr)`. Iterating a non-iterable
value raises `TypeError`. -/
def iterable_repr_yml (v : PyVal) : Except PyExc PyVal :=
  if isStrVal v then .ok v
  else
    match pyIter v with
    | some els => .ok (.tuple (els.map repr_yml))
    | Option.none => .error .typeError

/-- C9: the Iterable/Collection strategy's `repr_yml` passes every textual
(string) value through unchanged — it never decomposes a string into the
sequence of its characters — and converts every non-textual iterable
(shown for lists, tuples and mappings) to the ordered sequence of the
converted elements. -/
theorem C9_iterable_strategy_string_passthrough :
    (∀ s : List Char,
      iterable_repr_yml (.scalar (.str s)) = .ok (.scalar (.str s))) ∧
    (∀ els : List PyVal,
      iterable_repr_yml (.list els) = .ok (.tuple (els.map repr_yml))) ∧
    (∀ els : List PyVal,
      iterable_repr_yml (.tuple els) = .ok (.tuple (els.map repr_yml))) ∧
    (∀ es : List (Scalar × PyVal),
      iterable_repr_yml (.dict es) =
        .ok (.tuple ((es.map (fun kv => PyVal.scalar kv.1)).map repr_yml))) :=
  ⟨fun _ => rfl, fun _ => rfl, fun _ => rfl, fun _ => rfl⟩

/-! ## The wire-to-object conversion `repr_py` (C1)

`repr_py(cls, yml_repr)` (src/yaml_serde/__init__.py:164-178) resolves the
serializer of `cls` and calls its `repr_py`:
* the wrapper serializer (non-container classes) runs
  `self._tgt_cls(yml_repr=yml_repr)` (src/yaml_serde/__init__.py:537-539)
  — every built-in constructor rejects the keyword argument `yml_repr`
  with `TypeError`;
* the container serializers with no declared element class run
  `self._tgt_cls(yml_repr)` (src/yaml_serde/__init__.py:547-552, 567-569),
  the one-positional-argument Python constructor, modelled by `pyCtor1`. -/

/-- The built-in Python classes in the scope of claim C1. -/
inductive BuiltinTy : Type where
  | int
  | bool
  | noneT
  | str
  | list
  | tuple
  | dict
deriving DecidableEq

/-- The `collections.abc` capabilities of the built-in classes: `str`,
`list` and `tuple` are Collections (hence Iterables), `dict` is a Mapping;
`int`, `bool` and `NoneType` have no container capability. -/
def builtinCaps : BuiltinTy → PyCls
  | .int => ⟨false, false, false, false, false⟩
  | .bool => ⟨false, false, false, false, false⟩
  | .noneT => ⟨false, false, false, false, false⟩
  | .str => ⟨false, false, true, true, true⟩
  | .list => ⟨false, false, true, true, false⟩
  | .tuple => ⟨false, false, true, true, false⟩
  | .dict => ⟨true, false, true, true, false⟩

/-- `type(x)` of a modelled value. -/
def typeOf : PyVal → BuiltinTy
  | .scalar (.int _) => .int
  | .scalar (.bool _) => .bool
  | .scalar .none => .noneT
  | .scalar (.str _) => .str
  | .list _ => .list
  | .tuple _ => .tuple
  | .dict _ => .dict

/-- Python truthiness `bool(x)`: zero, empty and `None` are falsy. -/
def pyTruthy : PyVal → Bool
  | .scalar (.int n) => decide (n ≠ 0)
  | .scalar (.bool b) => b
  | .scalar .none => false
  | .scalar (.str s) => !s.isEmpty
  | .list els => !els.isEmpty
  | .tuple els => !els.isEmpty
  | .dict es => !es.isEmpty

/-- `int(s)` on a string, simplified model: an optional sign followed by at
least one decimal digit parses; anything else raises `ValueError`
(whitespace stripping and underscore separators are not modelled). -/
def parseIntChars (s : List Char) : Option Int :=
  let digits : List Char → Option Nat := fun ds =>
    if ds.isEmpty then Option.none
    else
      ds.foldl (fun acc c =>
        match acc with
        | Option.none => Option.none
        | some n => if c.isDigit then some (n * 10 + (c.toNat - 48))
                    else Option.none) (some 0)
  match s with
  | '-' :: rest => (digits rest).map (fun n => -(n : Int))
  | '+' :: rest => (digits rest).map (fun n => (n : Int))
  | _ => (digits s).map (fun n => (n : Int))

mutual

/-- Python `repr(x)` of the modelled values, simplified: strings are
wrapped in single quotes without escaping inner quotes. -/
def pyRepr : PyVal → List Char
  | .scalar (.int n) => intToChars n
  | .scalar (.bool b) => (if b then "True" else "False").data
  | .scalar .none => "None".data
  | .scalar (.str s) => Char.ofNat 39 :: s ++ [Char.ofNat 39]
  | .list els => '[' :: pyReprItems els ++ [']']
  | .tuple [v] => '(' :: pyRepr v ++ [',', ')']
  | .tuple els => '(' :: pyReprItems els ++ [')']
  | .dict es => Char.ofNat 123 :: pyReprEntries es ++ [Char.ofNat 125]

/-- Comma-separated `repr` of the elements of a list or tuple. -/
def pyReprItems : List PyVal → List Char
  | [] => []
  | [v] => pyRepr v
  | v :: r => pyRepr v ++ ',' :: ' ' :: pyReprItems r

/-- Comma-separated `repr k: repr v` of the entries of a dict. -/
def pyReprEntries : List (Scalar × PyVal) → List Char
  | [] => []
  | [(k, v)] => pyRepr (.scalar k) ++ ':' :: ' ' :: pyRepr v
  | (k, v) :: r =>
    pyRepr (.scalar k) ++ ':' :: ' ' :: pyRepr v ++ ',' :: ' ' :: pyReprEntries r

end

/-- Python `str(x)`: the string itself for strings, `str()` of scalars,
and `repr()` for containers. -/
def pyStr : PyVal → List Char
  | .scalar (.str s) => s
  | .scalar (.int n) => intToChars n
  | .scalar (.bool b) => (if b then "True" else "False").data
  | .scalar .none => "None".data
  | v => pyRepr v

/-- An element of a Python iterable viewed as a key/value pair, as consumed
by `dict(iterable_of_pairs)`: a two-element list or tuple whose first
component is a (hashable) scalar. -/
def pyPairOf : PyVal → Option (Scalar × PyVal)
  | .list [.scalar k, v] => some (k, v)
  | .tuple [.scalar k, v] => some (k, v)
  | _ => Option.none

/-- The one-positional-argument constructors of the built-in classes,
`cls(x)`:
* `int(x)`: ints and bools pass (bools widen to 0/1), strings parse or
  raise `ValueError`, everything else raises `TypeError`;
* `bool(x)`: truthiness; `NoneType(x)`: `TypeError` (takes no arguments);
* `str(x)`: `pyStr`;
* `list(x)` / `tuple(x)`: the elements of any iterable, `TypeError` on a
  non-iterable;
* `dict(x)`: a mapping is copied; an iterable of key/value pairs is
  consumed; anything else raises `TypeError`. -/
def pyCtor1 : BuiltinTy → PyVal → Except PyExc PyVal
  | .int, .scalar (.int n) => .ok (.scalar (.int n))
  | .int, .scalar (.bool b) => .ok (.scalar (.int (if b then 1 else 0)))
  | .int, .scalar (.str s) =>
    match parseIntChars s with
    | some n => .ok (.scalar (.int n))
    | Option.none => .error .valueError
  | .int, _ => .error .typeError
  | .bool, v => .ok (.scalar (.bool (pyTruthy v)))
  | .noneT, _ => .error .typeError
  | .str, v => .ok (.scalar (.str (pyStr v)))
  | .list, v =>
    match pyIter v with
    | some els => .ok (.list els)
    | Option.none => .error .typeError
  | .tuple, v =>
    match pyIter v with
    | some els => .ok (.tuple els)
    | Option.none => .error .typeError
  | .dict, .dict es => .ok (.dict es)
  | .dict, v =>
    match pyIter v with
    | some els =>
      match els.mapM pyPairOf with
      | some pairs => .ok (.dict pairs)
      | Option.none => .error .typeError
    | Option.none => .error .typeError

/-- The module-level `repr_py(cls, yml_repr)`
(src/yaml_serde/__init__.py:164-178) restricted to the built-in classes:
resolve the built-in serializer of `cls` via `BuiltinYamlSerializerClass`
and run its `repr_py`. The wrapper serializer calls
`self._tgt_cls(yml_repr=yml_repr)` (src/yaml_serde/__init__.py:537-539),
which every built-in constructor rejects with `TypeError` (none accepts a
keyword argument `yml_repr`); all container serializers (with no declared
element class) call `self._tgt_cls(yml_repr)`
(src/yaml_serde/__init__.py:547-552, 567-569). -/
def repr_py_builtin (ty : BuiltinTy) (w : PyVal) : Except PyExc PyVal :=
  match BuiltinYamlSerializerClass (builtinCaps ty) with
  | .wrapper => .error .typeError
  | _ => pyCtor1 ty w

/-- Whether a value is a scalar (used to state flatness of containers). -/
def isScalarVal : PyVal → Bool
  | .scalar _ => true
  | _ => false

theorem repr_yml_list_flat (els : List PyVal)
    (h : ∀ v ∈ els, isScalarVal v = true) : repr_yml_list els = els := by
  induction els with
  | nil => rfl
  | cons v r ih =>
    have hv := h v (List.mem_cons_self v r)
    have hr := ih (fun w hw => h w (List.mem_cons_of_mem v hw))
    match v, hv with
    | .scalar a, _ => simp [repr_yml_list, repr_yml, hr]

theorem repr_yml_entries_flat (es : List (Scalar × PyVal))
    (h : ∀ kv ∈ es, isScalarVal kv.2 = true) : repr_yml_entries es = es := by
  induction es with
  | nil => rfl
  | cons kv r ih =>
    have hv := h kv (List.mem_cons_self kv r)
    have hr := ih (fun w hw => h w (List.mem_cons_of_mem kv hw))
    match kv, hv with
    | (k, .scalar a), _ => simp [repr_yml_entries, repr_yml, hr]

/-- Counterexample to C1 as stated: for `x = 3` (an `int`, one of the
claimed round-trip types), `repr_py(int, repr_yml(3))` does not return `3`
— the wrapper serializer calls `int(yml_repr=3)`, which raises
`TypeError`, because `int` is not a container and its constructor does not
accept the keyword argument `yml_repr`. -/
theorem C1_roundtrip_counterexample :
    repr_py_builtin (typeOf (.scalar (.int 3)))
        (repr_yml (.scalar (.int 3))) = .error .typeError ∧
    repr_py_builtin (typeOf (.scalar (.int 3)))
        (repr_yml (.scalar (.int 3))) ≠ .ok (.scalar (.int 3)) :=
  ⟨rfl, fun h => Except.noConfusion h⟩

/-- C1 (amended): the round-trip `repr_py(type(x), repr_yml(x)) == x`
through the default built-in serializers holds for the container and
textual built-ins — `str`, flat `list` and flat `dict` (with `bool` values
included among the scalars) — but not for the non-container scalars `int`,
`bool` and `None`, whose wrapper deserializer calls the constructor with
the keyword argument `yml_repr` and raises `TypeError`. -/
theorem C1_roundtrip_amended :
    (∀ s : List Char,
      repr_py_builtin (typeOf (.scalar (.str s)))
        (repr_yml (.scalar (.str s))) = .ok (.scalar (.str s))) ∧
    (∀ els : List PyVal, (∀ v ∈ els, isScalarVal v = true) →
      repr_py_builtin (typeOf (.list els))
        (repr_yml (.list els)) = .ok (.list els)) ∧
    (∀ es : List (Scalar × PyVal), (∀ kv ∈ es, isScalarVal kv.2 = true) →
      repr_py_builtin (typeOf (.dict es))
        (repr_yml (.dict es)) = .ok (.dict es)) ∧
    (repr_py_builtin (typeOf (.scalar (.bool true)))
        (repr_yml (.scalar (.bool true))) = .error .typeError) ∧
    (repr_py_builtin (typeOf (.scalar .none))
        (repr_yml (.scalar .none)) = .error .typeError) := by
  refine ⟨fun s => rfl, fun els h => ?_, fun es h => ?_, rfl, rfl⟩
  · show pyCtor1 .list (repr_yml (.list els)) = .ok (.list els)
    simp [repr_yml, repr_yml_list_flat els h, pyCtor1, pyIter]
  · show pyCtor1 .dict (repr_yml (.dict es)) = .ok (.dict es)
    simp [repr_yml, repr_yml_entries_flat es h, pyCtor1]

/-- Witness for C1 (amended) at concrete inputs: the string `"hi"`, the
flat list `[1, "a", True]` and the flat mapping `{"k": 1}` round-trip. -/
theorem C1_roundtrip_amended_witness :
    repr_py_builtin (typeOf (.scalar (.str "hi".data)))
        (repr_yml (.scalar (.str "hi".data))) =
      .ok (.scalar (.str "hi".data)) ∧
    repr_py_builtin
        (typeOf (.list [.scalar (.int 1), .scalar (.str "a".data),
          .scalar (.bool true)]))
        (repr_yml (.list [.scalar (.int 1), .scalar (.str "a".data),
          .scalar (.bool true)])) =
      .ok (.list [.scalar (.int 1), .scalar (.str "a".data),
        .scalar (.bool true)]) ∧
    repr_py_builtin (typeOf (.dict [(.str "k".data, .scalar (.int 1))]))
        (repr_yml (.dict [(.str "k".data, .scalar (.int 1))])) =
      .ok (.dict [(.str "k".data, .scalar (.int 1))]) :=
  ⟨C1_roundtrip_amended.1 "hi".data,
   C1_roundtrip_amended.2.1
     [.scalar (.int 1), .scalar (.str "a".data), .scalar (.bool true)]
     (by intro v hv; fin_cases hv <;> rfl),
   C1_roundtrip_amended.2.2.1 [(.str "k".data, .scalar (.int 1))]
     (by intro kv hkv; fin_cases hkv; rfl)⟩

/-! ## The yaml format (C2, C5)

`YamlSerializationFormat` (src/yaml_serde/__init__.py:225-249): the body is
produced by `yaml.safe_dump(obj)` (src/yaml_serde/__init__.py:231-235, safe
mode) and framed by `"---\n{}\n...\n".format(yml_str)` unless `partial`
(src/yaml_serde/__init__.py:241-247).

`yaml.safe_dump` is external (PyYAML); it is modelled here for the block
style it emits by default:
* mapping keys are sorted (`sort_keys=True` is PyYAML's default):
  `try: mapping = sorted(mapping.items()) except TypeError: pass` — a
  stable sort by key when all keys are mutually comparable, the insertion
  order otherwise;
* Python comparability of the modelled scalar keys: numbers (ints and
  bools, since `bool` is an `int` subtype) compare with each other,
  strings compare lexicographically with strings, everything else is
  incomparable (`TypeError`);
* scalars render in plain style (`1`, `true`, `null`, bare strings — valid
  for strings not requiring quoting), a nested block sequence under a
  mapping key is indentless, nested mappings indent by two spaces;
* a top-level plain scalar document is terminated with an explicit
  `...\n` end marker (PyYAML's open-ended document handling: e.g.
  `yaml.safe_dump(3) == "3\n...\n"`). -/

/-- A numeric view of scalars for Python comparisons: `bool` is an `int`
subtype (`True == 1`, `False == 0`). -/
def scalarNum? : Scalar → Option Int
  | .int n => some n
  | .bool b => some (if b then 1 else 0)
  | _ => Option.none

/-- Lexicographic comparison of strings. -/
def lexCompare : List Char → List Char → Ordering
  | [], [] => .eq
  | [], _ :: _ => .lt
  | _ :: _, [] => .gt
  | a :: xs, b :: ys =>
    match compare a b with
    | .eq => lexCompare xs ys
    | o => o

/-- Python comparison of the modelled scalar keys: numbers compare with
numbers, strings with strings; any other pair raises `TypeError`
(modelled as `none`). -/
def cmpScalar? (a b : Scalar) : Option Ordering :=
  match scalarNum? a, scalarNum? b with
  | some x, some y => some (compare x y)
  | _, _ =>
    match a, b with
    | .str s, .str t => some (lexCompare s t)
    | _, _ => Option.none

/-- Whether all keys of a mapping are mutually comparable (i.e. Python's
`sorted` does not raise `TypeError`). -/
def allComparable (ks : List Scalar) : Bool :=
  ks.all (fun a => ks.all (fun b => (cmpScalar? a b).isSome))

/-- Strict key order used by the stable sort: `a` sorts strictly before
`b`. -/
def keyLt (a b : Scalar) : Bool :=
  match cmpScalar? a b with
  | some .lt => true
  | _ => false

/-- Stable insertion of a mapping entry by key order (an entry moves past
another only when its key is strictly smaller, matching the stability of
Python's sort on distinct keys). -/
def insertEntryByKey (e : Scalar × PyVal) :
    List (Scalar × PyVal) → List (Scalar × PyVal)
  | [] => [e]
  | f :: r => if keyLt e.1 f.1 then e :: f :: r else f :: insertEntryByKey e r

/-- Stable insertion sort of mapping entries by key order. -/
def sortEntriesByKey : List (Scalar × PyVal) → List (Scalar × PyVal)
  | [] => []
  | e :: r => insertEntryByKey e (sortEntriesByKey r)

/-- PyYAML's `represent_mapping` key handling with the default
`sort_keys=True`: `try: mapping = sorted(mapping.items()) except
TypeError: pass`. -/
def yamlSortEntries (es : List (Scalar × PyVal)) : List (Scalar × PyVal) :=
  if allComparable (es.map (·.1)) then sortEntriesByKey es else es

/-- The order in which the yaml encoder emits the keys of a mapping. -/
def yamlEmitKeyOrder (es : List (Scalar × PyVal)) : List Scalar :=
  (yamlSortEntries es).map (·.1)

mutual

/-- Recursively apply the encoder's key ordering to every mapping inside a
wire value (each mapping the emitter reaches is ordered the same way). -/
def yamlSortDeep : PyVal → PyVal
  | .scalar a => .scalar a
  | .list els => .list (yamlSortDeepList els)
  | .tuple els => .tuple (yamlSortDeepList els)
  | .dict es => .dict (yamlSortEntries (yamlSortDeepEntries es))

def yamlSortDeepList : List PyVal → List PyVal
  | [] => []
  | v :: r => yamlSortDeep v :: yamlSortDeepList r

def yamlSortDeepEntries : List (Scalar × PyVal) → List (Scalar × PyVal)
  | [] => []
  | (k, v) :: r => (k, yamlSortDeep v) :: yamlSortDeepEntries r

end

/-- Plain-style yaml rendering of a scalar (`1`, `true`, `null`, a bare
string; faithful for strings that PyYAML does not quote). -/
def scalarYaml : Scalar → List Char
  | .int n => intToChars n
  | .bool b => (if b then "true" else "false").data
  | .none => "null".data
  | .str s => s

/-- The single-token rendering of a value that fits on the line of its
mapping key (scalars and empty containers, which PyYAML emits in flow
style: `[]`, `\x7b\x7d`). -/
def inlineYaml? : PyVal → Option (List Char)
  | .scalar a => some (scalarYaml a)
  | .list [] => some "[]".data
  | .tuple [] => some "[]".data
  | .dict [] => some "\x7b\x7d".data
  | _ => Option.none

mutual

/-- The block-style lines of a wire value (pairs of indent width and line
content). Mappings here are emitted in the order given (key sorting is the
separate `yamlSortDeep` pass). -/
def yamlLines : PyVal → Nat → List (Nat × List Char)
  | .scalar a, ind => [(ind, scalarYaml a)]
  | .list els, ind =>
    if els.isEmpty then [(ind, "[]".data)] else yamlSeqLines els ind
  | .tuple els, ind =>
    if els.isEmpty then [(ind, "[]".data)] else yamlSeqLines els ind
  | .dict es, ind =>
    if es.isEmpty then [(ind, "\x7b\x7d".data)] else yamlMapLines es ind

/-- The lines of a block sequence: each item starts with `- `; the lines
of a nested value continue at two more spaces of indent. -/
def yamlSeqLines : List PyVal → Nat → List (Nat × List Char)
  | [], _ => []
  | v :: r, ind =>
    (match yamlLines v (ind + 2) with
     | [] => [(ind, "-".data)]
     | (_, l0) :: rest => (ind, '-' :: ' ' :: l0) :: rest) ++
      yamlSeqLines r ind

/-- The lines of a block mapping: a scalar (or empty-container) value sits
on the key's line after `: `; a nested sequence is indentless under its
key; a nested mapping indents by two. -/
def yamlMapLines : List (Scalar × PyVal) → Nat → List (Nat × List Char)
  | [], _ => []
  | (k, v) :: r, ind =>
    (match inlineYaml? v with
     | some sv => [(ind, scalarYaml k ++ ':' :: ' ' :: sv)]
     | Option.none =>
       (ind, scalarYaml k ++ [':']) ::
         yamlLines v
           (ind + (match v with | .list _ => 0 | .tuple _ => 0 | _ => 2))) ++
      yamlMapLines r ind

end

/-- Spaces of an indent. -/
def indentChars : Nat → List Char
  | 0 => []
  | n + 1 => ' ' :: indentChars n

/-- Render indented lines to text. -/
def renderLines : List (Nat × List Char) → List Char
  | [] => []
  | (i, l) :: r => indentChars i ++ l ++ '\n' :: renderLines r

/-- Model of `yaml.safe_dump(obj)` in safe mode
(src/yaml_serde/__init__.py:231-235 delegates to PyYAML): sort every
mapping's keys (PyYAML's `sort_keys=True` default), emit block-style
lines, and terminate a top-level plain scalar document with the `...\n`
end marker. -/
def yaml_safe_dump (v : PyVal) : List Char :=
  let body := renderLines (yamlLines (yamlSortDeep v) 0)
  match v with
  | .scalar _ => body ++ "...\n".data
  | _ => body

/-- `YamlSerializationFormat.serialize(obj, partial)`
(src/yaml_serde/__init__.py:241-247): `fmt_str = "---\n{}\n...\n"` unless
`partial` (then `"{}"`), applied to `yaml.safe_dump(obj)`. -/
def yaml_format_serialize (obj : PyVal) (part : Bool) : List Char :=
  let yml_str := yaml_safe_dump obj
  if !part then "---\n".data ++ yml_str ++ "\n...\n".data else yml_str

/-- `serialize(obj, "yaml", partial=part)` restricted to its returned
string (src/yaml_serde/__init__.py:58-80, 481-498): the yaml format's
`serialize` applied to `repr_yml(obj)`. -/
def yml_string (obj : PyVal) (part : Bool) : List Char :=
  yaml_format_serialize (repr_yml obj) part

theorem insertEntryByKey_perm (e : Scalar × PyVal)
    (l : List (Scalar × PyVal)) : List.Perm (insertEntryByKey e l) (e :: l) := by
  induction l with
  | nil => rfl
  | cons f r ih =>
    simp only [insertEntryByKey]
    split
    · rfl
    · exact (ih.cons f).trans (List.Perm.swap e f r)

theorem sortEntriesByKey_perm (es : List (Scalar × PyVal)) :
    List.Perm (sortEntriesByKey es) es := by
  induction es with
  | nil => rfl
  | cons e r ih =>
    exact (insertEntryByKey_perm e (sortEntriesByKey r)).trans (ih.cons e)

theorem yamlSortEntries_perm (es : List (Scalar × PyVal)) :
    List.Perm (yamlSortEntries es) es := by
  unfold yamlSortEntries
  split
  · exact sortEntriesByKey_perm es
  · rfl

theorem yamlSortDeepEntries_flat (es : List (Scalar × PyVal))
    (h : ∀ kv ∈ es, isScalarVal kv.2 = true) :
    yamlSortDeepEntries es = es := by
  induction es with
  | nil => rfl
  | cons kv r ih =>
    have hv := h kv (List.mem_cons_self kv r)
    have hr := ih (fun w hw => h w (List.mem_cons_of_mem kv hw))
    match kv, hv with
    | (k, .scalar a), _ => simp [yamlSortDeepEntries, yamlSortDeep, hr]

/-- The inline rendering of a flat mapping value (defined for scalars and
empty containers). -/
def flatValChars (v : PyVal) : List Char :=
  (inlineYaml? v).getD []

theorem yamlMapLines_flat (es : List (Scalar × PyVal)) (ind : Nat)
    (h : ∀ kv ∈ es, isScalarVal kv.2 = true) :
    yamlMapLines es ind =
      es.map (fun kv =>
        (ind, scalarYaml kv.1 ++ ':' :: ' ' :: flatValChars kv.2)) := by
  induction es with
  | nil => rfl
  | cons kv r ih =>
    have hv := h kv (List.mem_cons_self kv r)
    have hr := ih (fun w hw => h w (List.mem_cons_of_mem kv hw))
    match kv, hv with
    | (k, .scalar a), _ =>
      simp [yamlMapLines, inlineYaml?, flatValChars, hr]

theorem renderLines_zero_map {α : Type} (f : α → List Char) (l : List α) :
    renderLines (l.map (fun x => (0, f x))) =
      (l.map (fun x => f x ++ ['\n'])).flatten := by
  induction l with
  | nil => rfl
  | cons x r ih => simp [renderLines, indentChars, ih]

/-- Counterexample to C2 as stated: the mapping whose keys were inserted in
order `["b", "a"]` serializes (primary format, safe mode) to the body text
`"a: 2\nb: 1\n"` — the keys appear in sorted order, not in insertion
order, because `yaml.safe_dump` sorts comparable keys by default
(`sort_keys=True`). -/
theorem C2_mapping_order_counterexample :
    yml_string (.dict [(.str "b".data, .scalar (.int 1)),
        (.str "a".data, .scalar (.int 2))]) true = "a: 2\nb: 1\n".data ∧
    yamlEmitKeyOrder [(.str "b".data, .scalar (.int 1)),
        (.str "a".data, .scalar (.int 2))] ≠
      [.str "b".data, .str "a".data] := by
  constructor
  · rfl
  · decide

/-- C2 (amended): serializing a mapping (with scalar keys and scalar
values) with the primary format in safe mode yields body text consisting
of one `key: value` line per entry, in the order produced by the encoder's
default key sorting: when all keys are mutually comparable the keys appear
in sorted order; only when key sorting raises `TypeError` (mutually
incomparable keys) do the keys appear in insertion order. -/
theorem C2_mapping_order_amended :
    ∀ es : List (Scalar × PyVal), es ≠ [] →
      (∀ kv ∈ es, isScalarVal kv.2 = true) →
      yml_string (.dict es) true =
        ((yamlSortEntries es).map (fun kv =>
          scalarYaml kv.1 ++ ':' :: ' ' :: flatValChars kv.2 ++ ['\n'])).flatten ∧
      (allComparable (es.map (·.1)) = true →
        yamlSortEntries es = sortEntriesByKey es) ∧
      (allComparable (es.map (·.1)) = false →
        yamlEmitKeyOrder es = es.map (·.1)) := by
  intro es hne h
  refine ⟨?_, fun hc => ?_, fun hc => ?_⟩
  · have hflat : ∀ kv ∈ yamlSortEntries es, isScalarVal kv.2 = true :=
      fun kv hkv => h kv ((yamlSortEntries_perm es).mem_iff.mp hkv)
    have hsne : yamlSortEntries es ≠ [] := by
      intro h0
      have hp := yamlSortEntries_perm es
      rw [h0] at hp
      exact hne hp.symm.eq_nil
    have hlines :
        yamlLines (.dict (yamlSortEntries es)) 0 =
          yamlMapLines (yamlSortEntries es) 0 := by
      rw [yamlLines]
      simp [List.isEmpty_iff, hsne]
    calc yml_string (.dict es) true
        = renderLines (yamlLines (yamlSortDeep (.dict (repr_yml_entries es))) 0) := rfl
      _ = renderLines (yamlLines (.dict (yamlSortEntries es)) 0) := by
          rw [repr_yml_entries_flat es h, yamlSortDeep,
            yamlSortDeepEntries_flat es h]
      _ = renderLines (yamlMapLines (yamlSortEntries es) 0) := by rw [hlines]
      _ = ((yamlSortEntries es).map (fun kv =>
            scalarYaml kv.1 ++ ':' :: ' ' :: flatValChars kv.2 ++ ['\n'])).flatten := by
          rw [yamlMapLines_flat _ _ hflat, renderLines_zero_map]
  · simp [yamlSortEntries, hc]
  · simp [yamlEmitKeyOrder, yamlSortEntries, hc]

/-- Witness for C2 (amended) at the concrete two-entry mapping inserted in
order `["b", "a"]`: its keys are comparable, so the emitted order is the
sorted one, and the body is the two sorted `key: value` lines. -/
theorem C2_mapping_order_amended_witness :
    yml_string (.dict [(.str "b".data, .scalar (.int 1)),
        (.str "a".data, .scalar (.int 2))]) true =
      (([(Scalar.str "a".data, PyVal.scalar (.int 2)),
         (Scalar.str "b".data, PyVal.scalar (.int 1))]).map (fun kv =>
          scalarYaml kv.1 ++ ':' :: ' ' :: flatValChars kv.2 ++ ['\n'])).flatten := by
  have h := (C2_mapping_order_amended
    [(.str "b".data, .scalar (.int 1)), (.str "a".data, .scalar (.int 2))]
    (List.cons_ne_nil _ _) (by intro kv hkv; fin_cases hkv <;> rfl)).1
  rw [h]
  rfl

/-- Counterexample to C5 as stated: serializing the object `3` with the
primary format and `partial=True` yields `"3\n...\n"` — the bare encoded
body contains the document end marker `"...\n"`, because the yaml encoder
itself terminates a top-level plain scalar document with it. -/
theorem C5_framing_counterexample :
    yml_string (.scalar (.int 3)) true = "3\n...\n".data ∧
    "...\n".data <:+: yml_string (.scalar (.int 3)) true := by
  constructor
  · rfl
  · decide

/-- C5 (amended): for every object, serializing with the primary format and
`partial=False` produces text that begins with `"---\n"` and ends with
`"...\n"`; serializing with `partial=True` produces exactly the bare
encoded body with no markers added by the framer — so the partial output
contains a marker only when the encoded body itself does (which happens
for top-level scalar documents, whose body ends with `"...\n"`). -/
theorem C5_framing_amended :
    ∀ obj : PyVal,
      ("---\n".data <+: yml_string obj false) ∧
      ("...\n".data <:+ yml_string obj false) ∧
      yml_string obj true = yaml_safe_dump (repr_yml obj) ∧
      (∀ m : List Char, ¬ m <:+: yaml_safe_dump (repr_yml obj) →
        ¬ m <:+: yml_string obj true) := by
  intro obj
  refine ⟨⟨yaml_safe_dump (repr_yml obj) ++ "\n...\n".data, ?_⟩,
    ⟨"---\n".data ++ yaml_safe_dump (repr_yml obj) ++ ['\n'], ?_⟩, rfl,
    fun m hm => ?_⟩
  · simp [yml_string, yaml_format_serialize]
  · show _ ++ _ = yml_string obj false
    simp [yml_string, yaml_format_serialize]
  · simpa [yml_string, yaml_format_serialize] using hm

/-- Witness for C5 (amended) at the concrete object `{"a": 1}`: its encoded
body `"a: 1\n"` is marker-free, so the partial output contains neither
marker, while the non-partial output is framed. -/
theorem C5_framing_amended_witness :
    ("---\n".data <+:
      yml_string (.dict [(.str "a".data, .scalar (.int 1))]) false) ∧
    ¬ ("---\n".data <:+:
      yml_string (.dict [(.str "a".data, .scalar (.int 1))]) true) ∧
    ¬ ("...\n".data <:+:
      yml_string (.dict [(.str "a".data, .scalar (.int 1))]) true) :=
  ⟨(C5_framing_amended (.dict [(.str "a".data, .scalar (.int 1))])).1,
   (C5_framing_amended (.dict [(.str "a".data, .scalar (.int 1))])).2.2.2
     "---\n".data (by decide),
   (C5_framing_amended (.dict [(.str "a".data, .scalar (.int 1))])).2.2.2
     "...\n".data (by decide)⟩

/-! ## The json (compact) format (C6)

`JsonSerializationFormat` (src/yaml_serde/__init__.py:251-257): `serialize`
returns `json.dumps(obj)` and ignores the `partial` flag entirely (the
document markers are never applied).

`json.dumps` is external (the standard library); it is modelled with its
default separators (`", "` and `": "`), string escaping of `"` `\` and
control characters (`\n`, `\t`, `\r` named, other control characters as
`\u00XX`), and object keys coerced to strings (`int`/`bool`/`None` keys
become `"1"`, `"true"`, `"null"`). -/

/-- Hexadecimal digit characters. -/
def hexDigitChar (d : Nat) : Char :=
  if d = 10 then 'a' else if d = 11 then 'b' else if d = 12 then 'c'
  else if d = 13 then 'd' else if d = 14 then 'e' else if d = 15 then 'f'
  else digitChar d

theorem hexDigitChar_ne_newline (d : Nat) : hexDigitChar d ≠ '\n' := by
  unfold hexDigitChar
  repeat' split
  all_goals first | decide | exact digitChar_ne_newline d

/-- `json.dumps` escaping of one string character. -/
def jsonEscapeChar (c : Char) : List Char :=
  if c = '"' then ['\\', '"']
  else if c = '\\' then ['\\', '\\']
  else if c = '\n' then ['\\', 'n']
  else if c = '\t' then ['\\', 't']
  else if c = '\r' then ['\\', 'r']
  else if c.toNat < 32 then
    ['\\', 'u', '0', '0', hexDigitChar (c.toNat / 16), hexDigitChar (c.toNat % 16)]
  else [c]

theorem jsonEscapeChar_ne_newline (c : Char) :
    ∀ d ∈ jsonEscapeChar c, d ≠ '\n' := by
  intro d hd
  unfold jsonEscapeChar at hd
  split at hd
  · simp only [List.mem_cons, List.not_mem_nil, or_false] at hd
    rcases hd with rfl | rfl <;> decide
  · split at hd
    · simp only [List.mem_cons, List.not_mem_nil, or_false] at hd
      rcases hd with rfl | rfl <;> decide
    · split at hd
      · simp only [List.mem_cons, List.not_mem_nil, or_false] at hd
        rcases hd with rfl | rfl <;> decide
      · split at hd
        · simp only [List.mem_cons, List.not_mem_nil, or_false] at hd
          rcases hd with rfl | rfl <;> decide
        · split at hd
          · simp only [List.mem_cons, List.not_mem_nil, or_false] at hd
            rcases hd with rfl | rfl <;> decide
          · split at hd
            · simp only [List.mem_cons, List.not_mem_nil, or_false] at hd
              rcases hd with rfl | rfl | rfl | rfl | rfl | rfl
              · decide
              · decide
              · decide
              · decide
              · exact hexDigitChar_ne_newline _
              · exact hexDigitChar_ne_newline _
            · simp only [List.mem_cons, List.not_mem_nil, or_false] at hd
              subst hd
              rename_i hq hbs hnl htab hcr hctl
              exact hnl

/-- The json rendering of a string: surrounding quotes with the characters
escaped. -/
def jsonString (s : List Char) : List Char :=
  '"' :: (s.map jsonEscapeChar).flatten ++ ['"']

/-- The json rendering of a scalar value. -/
def jsonScalar : Scalar → List Char
  | .int n => intToChars n
  | .bool b => (if b then "true" else "false").data
  | .none => "null".data
  | .str s => jsonString s

/-- The json rendering of an object key: `json.dumps` coerces scalar keys
to strings (`{1: 2}` becomes `{"1": 2}`). -/
def jsonKey : Scalar → List Char
  | .str s => jsonString s
  | .int n => '"' :: intToChars n ++ ['"']
  | .bool b => '"' :: (if b then "true" else "false").data ++ ['"']
  | .none => '"' :: "null".data ++ ['"']

mutual

/-- Model of `json.dumps(obj)` with the default separators: scalars,
arrays (from lists and tuples) and objects, on a single line. -/
def json_dumps : PyVal → List Char
  | .scalar a => jsonScalar a
  | .list els => '[' :: jsonItems els ++ [']']
  | .tuple els => '[' :: jsonItems els ++ [']']
  | .dict es => Char.ofNat 123 :: jsonEntries es ++ [Char.ofNat 125]

/-- The `", "`-separated renderings of array elements (first element). -/
def jsonItems : List PyVal → List Char
  | [] => []
  | v :: r => json_dumps v ++ jsonItemsRest r

/-- The `", "`-separated renderings of array elements (subsequent
elements, each preceded by the separator). -/
def jsonItemsRest : List PyVal → List Char
  | [] => []
  | v :: r => ',' :: ' ' :: json_dumps v ++ jsonItemsRest r

/-- The `", "`-separated `key: value` renderings of object entries (first
entry). -/
def jsonEntries : List (Scalar × PyVal) → List Char
  | [] => []
  | (k, v) :: r => jsonKey k ++ ':' :: ' ' :: json_dumps v ++ jsonEntriesRest r

/-- The `", "`-separated `key: value` renderings of object entries
(subsequent entries, each preceded by the separator). -/
def jsonEntriesRest : List (Scalar × PyVal) → List Char
  | [] => []
  | (k, v) :: r =>
    ',' :: ' ' :: (jsonKey k ++ ':' :: ' ' :: json_dumps v) ++ jsonEntriesRest r

end

theorem jsonString_ne_newline (s : List Char) :
    ∀ c ∈ jsonString s, c ≠ '\n' := by
  intro c hc
  unfold jsonString at hc
  rcases List.mem_cons.mp hc with h | h
  · exact h ▸ (by decide)
  · rcases List.mem_append.mp h with h | h
    · obtain ⟨l, hl, hcl⟩ := List.mem_flatten.mp h
      obtain ⟨d, _, hd⟩ := List.mem_map.mp hl
      exact jsonEscapeChar_ne_newline d c (hd ▸ hcl)
    · simp only [List.mem_singleton] at h
      exact h ▸ (by decide)

theorem jsonScalar_ne_newline (a : Scalar) : ∀ c ∈ jsonScalar a, c ≠ '\n' := by
  match a with
  | .int n => exact intToChars_ne_newline n
  | .bool b =>
    cases b
    · intro c hc; fin_cases hc <;> decide
    · intro c hc; fin_cases hc <;> decide
  | .none => intro c hc; fin_cases hc <;> decide
  | .str s => exact jsonString_ne_newline s

theorem jsonKey_ne_newline (a : Scalar) : ∀ c ∈ jsonKey a, c ≠ '\n' := by
  match a with
  | .str s => exact jsonString_ne_newline s
  | .int n =>
    intro c hc
    rcases List.mem_cons.mp hc with h | h
    · exact h ▸ (by decide)
    · rcases List.mem_append.mp h with h | h
      · exact intToChars_ne_newline n c h
      · simp only [List.mem_singleton] at h
        exact h ▸ (by decide)
  | .bool b =>
    cases b
    · intro c hc; fin_cases hc <;> decide
    · intro c hc; fin_cases hc <;> decide
  | .none => intro c hc; fin_cases hc <;> decide

mutual

theorem json_dumps_ne_newline : ∀ (v : PyVal), ∀ c ∈ json_dumps v, c ≠ '\n'
  | .scalar a => jsonScalar_ne_newline a
  | .list els => by
    intro c hc
    rw [json_dumps] at hc
    rcases List.mem_cons.mp hc with h | h
    · exact h ▸ (by decide)
    · rcases List.mem_append.mp h with h | h
      · exact jsonItems_ne_newline els c h
      · simp only [List.mem_singleton] at h
        exact h ▸ (by decide)
  | .tuple els => by
    intro c hc
    rw [json_dumps] at hc
    rcases List.mem_cons.mp hc with h | h
    · exact h ▸ (by decide)
    · rcases List.mem_append.mp h with h | h
      · exact jsonItems_ne_newline els c h
      · simp only [List.mem_singleton] at h
        exact h ▸ (by decide)
  | .dict es => by
    intro c hc
    rw [json_dumps] at hc
    rcases List.mem_cons.mp hc with h | h
    · exact h ▸ (by decide)
    · rcases List.mem_append.mp h with h | h
      · exact jsonEntries_ne_newline es c h
      · simp only [List.mem_singleton] at h
        exact h ▸ (by decide)

theorem jsonItems_ne_newline : ∀ (l : List PyVal), ∀ c ∈ jsonItems l, c ≠ '\n'
  | [] => by intro c hc; cases hc
  | v :: r => by
    intro c hc
    rw [jsonItems] at hc
    rcases List.mem_append.mp hc with h | h
    · exact json_dumps_ne_newline v c h
    · exact jsonItemsRest_ne_newline r c h

theorem jsonItemsRest_ne_newline :
    ∀ (l : List PyVal), ∀ c ∈ jsonItemsRest l, c ≠ '\n'
  | [] => by intro c hc; cases hc
  | v :: r => by
    intro c hc
    rw [jsonItemsRest] at hc
    rcases List.mem_cons.mp hc with h | h
    · exact h ▸ (by decide)
    · rcases List.mem_cons.mp h with h | h
      · exact h ▸ (by decide)
      · rcases List.mem_append.mp h with h | h
        · exact json_dumps_ne_newline v c h
        · exact jsonItemsRest_ne_newline r c h

theorem jsonEntries_ne_newline :
    ∀ (es : List (Scalar × PyVal)), ∀ c ∈ jsonEntries es, c ≠ '\n'
  | [] => by intro c hc; cases hc
  | (k, v) :: r => by
    intro c hc
    rw [jsonEntries] at hc
    rcases List.mem_append.mp hc with h | h
    · rcases List.mem_append.mp h with h | h
      · exact jsonKey_ne_newline k c h
      · rcases List.mem_cons.mp h with h | h
        · exact h ▸ (by decide)
        · rcases List.mem_cons.mp h with h | h
          · exact h ▸ (by decide)
          · exact json_dumps_ne_newline v c h
    · exact jsonEntriesRest_ne_newline r c h

theorem jsonEntriesRest_ne_newline :
    ∀ (es : List (Scalar × PyVal)), ∀ c ∈ jsonEntriesRest es, c ≠ '\n'
  | [] => by intro c hc; cases hc
  | (k, v) :: r => by
    intro c hc
    rw [jsonEntriesRest] at hc
    rcases List.mem_cons.mp hc with h | h
    · exact h ▸ (by decide)
    · rcases List.mem_cons.mp h with h | h
      · exact h ▸ (by decide)
      · rcases List.mem_append.mp h with h | h
        · rcases List.mem_append.mp h with h | h
          · exact jsonKey_ne_newline k c h
          · rcases List.mem_cons.mp h with h | h
            · exact h ▸ (by decide)
            · rcases List.mem_cons.mp h with h | h
              · exact h ▸ (by decide)
              · exact json_dumps_ne_newline v c h
        · exact jsonEntriesRest_ne_newline r c h

end

/-- `JsonSerializationFormat.serialize(obj, partial)`
(src/yaml_serde/__init__.py:256-257): `return self.json_dump(obj,
partial=partial, **kwargs)`, and `json_dump` returns `json.dumps(obj)` —
the `partial` flag is ignored. -/
def json_format_serialize (obj : PyVal) (_part : Bool) : List Char :=
  json_dumps obj

/-- `serialize(obj, "json", partial=part)` restricted to its returned
string: the json format's `serialize` applied to `repr_yml(obj)`. -/
def json_string (obj : PyVal) (part : Bool) : List Char :=
  json_format_serialize (repr_yml obj) part

/-- C6: for every object and for both values of the partial flag,
serializing with the compact (json) format produces the same single-line
encoded body — the output does not depend on `partial`, contains no
newline character (single line), and contains neither the document begin
marker `"---\n"` nor the end marker `"...\n"`. -/
theorem C6_compact_single_line :
    ∀ (obj : PyVal) (p q : Bool),
      json_string obj p = json_string obj q ∧
      (∀ c ∈ json_string obj p, c ≠ '\n') ∧
      ¬ ("---\n".data <:+: json_string obj p) ∧
      ¬ ("...\n".data <:+: json_string obj p) := by
  intro obj p q
  refine ⟨rfl, json_dumps_ne_newline _, fun h => ?_, fun h => ?_⟩
  · exact json_dumps_ne_newline (repr_yml obj) '\n' (h.subset (by decide)) rfl
  · exact json_dumps_ne_newline (repr_yml obj) '\n' (h.subset (by decide)) rfl

/-- Witness for C6 at the concrete object `{"a": 1}` (encoded body
`{"a": 1}` on one line), with `partial` `True` versus `False`. -/
theorem C6_compact_single_line_witness :
    json_string (.dict [(.str "a".data, .scalar (.int 1))]) true =
      json_string (.dict [(.str "a".data, .scalar (.int 1))]) false ∧
    ('"' : Char) ≠ '\n' ∧
    ¬ ("---\n".data <:+:
      json_string (.dict [(.str "a".data, .scalar (.int 1))]) true) ∧
    ¬ ("...\n".data <:+:
      json_string (.dict [(.str "a".data, .scalar (.int 1))]) true) :=
  ⟨(C6_compact_single_line (.dict [(.str "a".data, .scalar (.int 1))])
      true false).1,
   (C6_compact_single_line (.dict [(.str "a".data, .scalar (.int 1))])
      true false).2.1 '"' (by decide),
   (C6_compact_single_line (.dict [(.str "a".data, .scalar (.int 1))])
      true false).2.2.1,
   (C6_compact_single_line (.dict [(.str "a".data, .scalar (.int 1))])
      true false).2.2.2⟩

/-! ## Serialization to file (C10)

`YamlSerializer.to_yaml` (src/yaml_serde/__init__.py:481-498): build
`yml_str = format.serialize(self.repr_yml(obj), partial=partial)`; if a
destination file is given, pass `yml_str` through the file-format-output
hook (`self._file_format_out`, backed by `FileSystem.format_output`,
src/yaml_serde/__init__.py:349-350 for the local identity hook) and write
the hook's result; finally `return yml_str` — the pre-hook string — in
either case. -/

/-- A file system state: an association of paths to contents. -/
structure FSState : Type where
  files : List (List Char × List Char)

/-- Read a file's contents, if present. -/
def FSState.readFile? (fs : FSState) (f : List Char) : Option (List Char) :=
  (fs.files.find? (fun kv => kv.1 == f)).map (·.2)

/-- `LocalFileSystem.write_file` (src/yaml_serde/__init__.py:333-343):
open in `"a"` (append) or `"w"` (overwrite) mode and write the contents. -/
def LocalFileSystem_write_file (fs : FSState) (file contents : List Char)
    (append : Bool) : FSState :=
  let old := if append then (fs.readFile? file).getD [] else []
  ⟨(file, old ++ contents) :: fs.files.filter (fun kv => !(kv.1 == file))⟩

/-- `LocalFileSystem.format_output` (src/yaml_serde/__init__.py:349-350):
the default file-format-output hook returns the output unchanged. -/
def LocalFileSystem_format_output (_file output : List Char) : List Char :=
  output

/-- `YamlSerializer.to_yaml(obj, format, to_file, partial, append_to_file)`
(src/yaml_serde/__init__.py:481-498), parametric in the format's
`serialize` function and in the file-format-output hook (a custom
`FileSystem` may override the local identity hook): compute
`yml_str`, optionally hook-transform and write it to the file, and return
`yml_str`. -/
def to_yaml (fmtSerialize : PyVal → Bool → List Char)
    (formatOutput : List Char → List Char → List Char)
    (obj : PyVal) (toFile : Option (List Char)) (part append : Bool)
    (fs : FSState) : List Char × FSState :=
  let yml_str := fmtSerialize (repr_yml obj) part
  match toFile with
  | Option.none => (yml_str, fs)
  | some f =>
    let file_contents := formatOutput f yml_str
    (yml_str, LocalFileSystem_write_file fs f file_contents append)

/-- C10: for every object and destination file, `to_yaml` returns the
format-encoded string produced before the file-format-output hook is
applied — the returned string does not depend on the hook and is returned
whether or not a destination was given — while the hook's transformation
affects exactly the content written to the destination file. -/
theorem C10_to_yaml_returns_prehook_string :
    ∀ (fmtSerialize : PyVal → Bool → List Char)
      (hook : List Char → List Char → List Char)
      (obj : PyVal) (f : List Char) (part append : Bool) (fs : FSState),
      (to_yaml fmtSerialize hook obj (some f) part append fs).1 =
        fmtSerialize (repr_yml obj) part ∧
      (to_yaml fmtSerialize hook obj Option.none part append fs).1 =
        fmtSerialize (repr_yml obj) part ∧
      (to_yaml fmtSerialize hook obj (some f) part false fs).2.readFile? f =
        some (hook f (fmtSerialize (repr_yml obj) part)) := by
  intro fmtSerialize hook obj f part append fs
  refine ⟨rfl, rfl, ?_⟩
  simp [to_yaml, LocalFileSystem_write_file, FSState.readFile?, List.find?]
